import Mathlib

/-!
Verification of the bithumb-price-monitor core: the per-symbol price store
(`src/utils/db_util.py`), the breakout-evaluation cycle and alert composer
(`src/main.py`).

Modelling conventions:
* Prices and volumes are modelled as rationals (`ℚ`); the Python code uses
  floats but every computation the claims touch is exact decimal arithmetic.
* Calendar dates (`reg_date` strings of the form YYYY-MM-DD, and SQLite's
  `DATE('now', '-N days')`) are modelled as integer day numbers: string
  comparison of ISO dates coincides with integer comparison of day numbers.
  The `[:10]` truncation of `candle_date_time_kst` to a date is modelled by
  the candle carrying its calendar day directly.
* A per-symbol SQLite table becomes a `List Row` in insertion order; the
  `UNIQUE(reg_date)` constraint, SQLite's `fetchone`, `MAX`/`MIN` aggregates
  and Python truthiness checks are modelled explicitly at each call site.
* Python exceptions become `Except Unit`; external effects (HTTP pages,
  chart rendering, Telegram sends) are oracles supplied as parameters.
-/

namespace BithumbMonitor

/-- A candle as returned by the exchange API adapter in `main.py`
(`get_latest_daily_candle` / `get_daily_candles`): opening price, last trade
price (close), high, low, accumulated volume, and the calendar day of
`candle_date_time_kst` (the `[:10]` date part, as a day number). -/
structure Candle where
  opening_price : ℚ
  trade_price : ℚ
  high_price : ℚ
  low_price : ℚ
  candle_acc_trade_volume : ℚ
  candle_date_kst : Int
  deriving Repr, DecidableEq

/-- One persisted row of a `bp_price_<symbol>` table
(`db_util.py: create_table`): `idx` is the AUTOINCREMENT surrogate key,
`reg_date` the unique calendar day. -/
structure Row where
  idx : Nat
  open_price : ℚ
  close_price : ℚ
  high_price : ℚ
  low_price : ℚ
  volume : ℚ
  reg_date : Int
  deriving Repr, DecidableEq

/-- A per-symbol table: rows in insertion order. -/
abbrev Table := List Row

/-- Model of `DatabaseUtil.get_record_by_date`: `SELECT * ... WHERE reg_date = ?`
followed by `fetchone()` — the first row whose `reg_date` matches, `None`
when there is none. -/
def get_record_by_date (table : Table) (date : Int) : Option Row :=
  table.find? (fun r => r.reg_date = date)

/-- The AUTOINCREMENT key SQLite assigns to the next inserted row of a table
built by inserts only (no deletes occur in this core). -/
def nextIdx (table : Table) : Nat :=
  table.length + 1

/-- Model of `DatabaseUtil.insert_candle`: `INSERT INTO ... (open_price, close_price,
high_price, low_price, volume, reg_date)` with `close_price` taken from the
candle's `trade_price` and `reg_date` from the date part of
`candle_date_time_kst`. -/
def insert_candle (table : Table) (candle : Candle) : Table :=
  table ++ [{ idx := nextIdx table,
              open_price := candle.opening_price,
              close_price := candle.trade_price,
              high_price := candle.high_price,
              low_price := candle.low_price,
              volume := candle.candle_acc_trade_volume,
              reg_date := candle.candle_date_kst }]

/-- Model of `DatabaseUtil.bulk_insert_candles`: the seed loader inserts each candle
in order with the same column mapping as `insert_candle`. -/
def bulk_insert_candles (table : Table) (candles : List Candle) : Table :=
  candles.foldl insert_candle table

/-- Model of `DatabaseUtil.update_candle`: `UPDATE ... SET close_price = ?,
high_price = ?, low_price = ?, volume = ? WHERE reg_date = ?` — every row
whose `reg_date` matches gets close/high/low/volume overwritten from the
candle; `open_price`, `idx` and `reg_date` are not in the SET list. -/
def update_candle (table : Table) (candle : Candle) (date : Int) : Table :=
  table.map (fun r =>
    if r.reg_date = date then
      { r with close_price := candle.trade_price,
               high_price := candle.high_price,
               low_price := candle.low_price,
               volume := candle.candle_acc_trade_volume }
    else r)

/-- SQLite `MAX` over a column: `NULL` (`none`) exactly when no rows. -/
def listMax (l : List ℚ) : Option ℚ :=
  l.max?

/-- SQLite `MIN` over a column: `NULL` (`none`) exactly when no rows. -/
def listMin (l : List ℚ) : Option ℚ :=
  l.min?

/-- The `WHERE DATE(reg_date) >= DATE('now', '-{days} days')` filter shared
by the period queries: rows dated on or after `today - days`. -/
def periodRows (table : Table) (today : Int) (days : Nat) : Table :=
  table.filter (fun r => today - (days : Int) ≤ r.reg_date)

/-- Model of `DatabaseUtil.get_period_high`: `SELECT MAX(high_price) ... WHERE
DATE(reg_date) >= DATE('now', '-{days} days')`; the aggregate always yields
one row, and the Python `if result and result['max_price']` truthiness check
turns both SQL `NULL` (no qualifying rows) and the value `0` into `None`. -/
def get_period_high (table : Table) (today : Int) (days : Nat) : Option ℚ :=
  match listMax ((periodRows table today days).map Row.high_price) with
  | none => none
  | some m => if m = 0 then none else some m

/-- Model of `DatabaseUtil.get_period_low`: `SELECT MIN(low_price) ...` with the same
window filter and the same truthiness check on `result['min_price']`. -/
def get_period_low (table : Table) (today : Int) (days : Nat) : Option ℚ :=
  match listMin ((periodRows table today days).map Row.low_price) with
  | none => none
  | some m => if m = 0 then none else some m

/-- Model of `DatabaseUtil.get_period_candles`: rows in the window ordered by
`reg_date ASC`, mapped back to candle shape (`close_price` becomes
`trade_price`). Used by `send_alert` for chart data. -/
def get_period_candles (table : Table) (today : Int) (days : Nat) : List Candle :=
  ((periodRows table today days).mergeSort (fun a b => a.reg_date ≤ b.reg_date)).map
    (fun r => { opening_price := r.open_price,
                trade_price := r.close_price,
                high_price := r.high_price,
                low_price := r.low_price,
                candle_acc_trade_volume := r.volume,
                candle_date_kst := r.reg_date })

/-- Rounding to the nearest integer with ties to even, as CPython's float
formatting (`:.2f`, `:,.0f`) does. No value formatted in this development is
a tie, so the tie-breaking rule never matters here. -/
def roundHalfEven (q : ℚ) : Int :=
  let f := ⌊q⌋
  let frac := q - f
  if frac < 1/2 then f
  else if 1/2 < frac then f + 1
  else if f % 2 = 0 then f else f + 1

/-- Two-digit zero-padded rendering of a natural number below 100. -/
def pad2 (n : Nat) : String :=
  if n < 10 then "0" ++ toString n else toString n

/-- Python's `f"{x:.2f}"`: round to two decimals, render with a sign for
negative values. -/
def formatFixed2 (q : ℚ) : String :=
  let n := roundHalfEven (q * 100)
  (if n < 0 then "-" else "") ++ toString (n.natAbs / 100) ++ "." ++ pad2 (n.natAbs % 100)

/-- Insert a comma before every group of three digits; the input is the
digit list least-significant first, `k` counts digits already emitted. -/
def insertCommasRev : List Char → Nat → List Char
  | [], _ => []
  | c :: cs, k =>
    if 0 < k ∧ k % 3 = 0 then ',' :: c :: insertCommasRev cs (k + 1)
    else c :: insertCommasRev cs (k + 1)

/-- Comma-grouped decimal rendering of a natural number. -/
def formatGroupedNat (n : Nat) : String :=
  String.mk ((insertCommasRev (toString n).data.reverse 0).reverse)

/-- Python's `f"{x:,.0f}"`: round to an integer, comma-group the digits. -/
def formatCommaF0 (q : ℚ) : String :=
  let n := roundHalfEven q
  (if n < 0 then "-" else "") ++ formatGroupedNat n.natAbs

/-- The period-price formatting lines of `main.send_alert`
(`f"{price_5d:,.0f}" if price_5d is not None else "N/A"`). -/
def price_str (p : Option ℚ) : String :=
  match p with
  | none => "N/A"
  | some v => formatCommaF0 v

/-- Python float division, which raises `ZeroDivisionError` on a zero
denominator. -/
def pydiv (a b : ℚ) : Except Unit ℚ :=
  if b = 0 then Except.error () else Except.ok (a / b)

/-- Model of `main.format_percent_diff`: returns `""` when `period_price` is `None`
or `0`, or when the difference is `0`; otherwise renders the percent
difference as `" (+p%)"` or `" (p%)"` (a negative percent carries its own
minus sign) with two decimals. Division is the fallible Python division;
the result is `Except`-valued to record whether it can raise. -/
def format_percent_diff (current_price : ℚ) (period_price : Option ℚ) :
    Except Unit String :=
  match period_price with
  | none => Except.ok ""
  | some p =>
    if p = 0 then Except.ok ""
    else
      let diff_amount := current_price - p
      if diff_amount = 0 then Except.ok ""
      else
        match pydiv diff_amount p with
        | Except.error e => Except.error e
        | Except.ok ratio =>
          let percent := ratio * 100
          if 0 < diff_amount then Except.ok (" (+" ++ formatFixed2 percent ++ "%)")
          else Except.ok (" (" ++ formatFixed2 percent ++ "%)")

/-- A breakout alert kind: intraday high renewal or low renewal. -/
inductive AlertKind
  | HIGH
  | LOW
  deriving Repr, DecidableEq

/-- The composed content of one alert, as gathered by the query block of
`main.send_alert` before any dispatch: the kind, the trigger price, and the
four window extrema read from the store at composition time. -/
structure Alert where
  kind : AlertKind
  current_price : ℚ
  price_5d : Option ℚ
  price_20d : Option ℚ
  price_60d : Option ℚ
  price_120d : Option ℚ
  deriving Repr, DecidableEq

/-- The query block of `main.send_alert` (lines 489-502): `HIGH` alerts read
the four period highs, `LOW` alerts the four period lows, from the store as
it is when `send_alert` runs. -/
def compose_alert (table : Table) (today : Int) (kind : AlertKind)
    (current_price : ℚ) : Alert :=
  match kind with
  | AlertKind.HIGH =>
      { kind := AlertKind.HIGH, current_price := current_price,
        price_5d := get_period_high table today 5,
        price_20d := get_period_high table today 20,
        price_60d := get_period_high table today 60,
        price_120d := get_period_high table today 120 }
  | AlertKind.LOW =>
      { kind := AlertKind.LOW, current_price := current_price,
        price_5d := get_period_low table today 5,
        price_20d := get_period_low table today 20,
        price_60d := get_period_low table today 60,
        price_120d := get_period_low table today 120 }

/-- Model of `main.process_symbol`: fetch today's candle (`none` models a failed
fetch, which skips the symbol), read today's row, then either insert (first
observation of the day, no comparison) or compare the trade price against
the stored row's high/low, composing alerts from the pre-update store, and
update the row regardless. Returns the final table and the composed
alerts. -/
def process_symbol (table : Table) (fetched : Option Candle) (today : Int) :
    Table × List Alert :=
  match fetched with
  | none => (table, [])
  | some candle =>
    let current_price := candle.trade_price
    match get_record_by_date table today with
    | none => (insert_candle table candle, [])
    | some existing_record =>
      let is_new_high := decide (existing_record.high_price < current_price)
      let is_new_low := decide (current_price < existing_record.low_price)
      let alerts :=
        (if is_new_high then [compose_alert table today AlertKind.HIGH current_price]
         else []) ++
        (if is_new_low then [compose_alert table today AlertKind.LOW current_price]
         else [])
      (update_candle table candle today, alerts)

/-- Oracles for the effectful collaborators of `send_alert`'s dispatch:
whether chart rendering and each Telegram call succeed or raise. -/
structure NotifyEnv where
  chart_ok : Bool
  photo_ok : Bool
  message_ok : Bool
  test_ok : Bool

/-- Which outbound sends the dispatch performed. -/
inductive NotifyAction
  | photo
  | message
  | test_message
  deriving Repr, DecidableEq

/-- Model of `main.create_chart`: returns a save path on success; its own handler
logs and re-raises, so failure propagates to the caller. -/
def create_chart (env : NotifyEnv) : Except Unit String :=
  if env.chart_ok then Except.ok "chart.png" else Except.error ()

/-- Model of `telegram.send_photo` as an oracle. -/
def telegram_send_photo (env : NotifyEnv) : Except Unit Unit :=
  if env.photo_ok then Except.ok () else Except.error ()

/-- Model of `telegram.send_message` as an oracle. -/
def telegram_send_message (env : NotifyEnv) : Except Unit Unit :=
  if env.message_ok then Except.ok () else Except.error ()

/-- Model of `telegram.send_test_message` (the error channel) as an oracle. -/
def telegram_send_test_message (env : NotifyEnv) : Except Unit Unit :=
  if env.test_ok then Except.ok () else Except.error ()

/-- The body of `send_alert`'s try block (main.py lines 529-541): read 365
days of candles; when nonempty, render the chart and, if a path came back,
send the photo; otherwise send the plain text message. Every raise inside
the body propagates out of it. -/
def send_alert_try_body (table : Table) (today : Int) (env : NotifyEnv) :
    Except Unit (List NotifyAction) :=
  let candles := get_period_candles table today 365
  if candles.isEmpty then
    match telegram_send_message env with
    | Except.error e => Except.error e
    | Except.ok _ => Except.ok [NotifyAction.message]
  else
    match create_chart env with
    | Except.error e => Except.error e
    | Except.ok chart_path =>
      if chart_path = "" then Except.ok []
      else
        match telegram_send_photo env with
        | Except.error e => Except.error e
        | Except.ok _ => Except.ok [NotifyAction.photo]

/-- The exception handling of `main.send_alert` (lines 529-548): the try
body's raise is caught by the except block, which logs and then attempts
`send_test_message` inside a bare `try/except: pass`, so a failure of the
error-channel send is swallowed as well. -/
def send_alert_dispatch (table : Table) (today : Int) (env : NotifyEnv) :
    Except Unit (List NotifyAction) :=
  match send_alert_try_body table today env with
  | Except.ok acts => Except.ok acts
  | Except.error _ =>
      match telegram_send_test_message env with
      | Except.ok _ => Except.ok [NotifyAction.test_message]
      | Except.error _ => Except.ok []

/-- One scripted exchange response to a page request inside
`main.get_daily_candles`: a JSON array (`ok`), a non-array JSON value
(`malformed`), or a raised exception such as a network error or a non-2xx
status (`err`). -/
inductive ApiResp
  | ok (data : List Candle)
  | malformed
  | err

/-- The pagination loop of `main.get_daily_candles` over a script of page
responses, carrying `remaining_count` and the accumulated candles.
A non-list response hits the explicit `return None`; an empty page breaks
the loop and returns what was gathered; an exception reaches the except
block, which returns the accumulated candles when nonempty and `None`
otherwise. An exhausted script while the loop still needs a page means the
request itself raises, i.e. behaves like `err`. -/
def get_daily_candles_loop : List ApiResp → Nat → List Candle → Option (List Candle)
  | _, 0, acc => some acc
  | [], _ + 1, acc => if acc.isEmpty then none else some acc
  | ApiResp.malformed :: _, _ + 1, _ => none
  | ApiResp.err :: _, _ + 1, acc => if acc.isEmpty then none else some acc
  | ApiResp.ok data :: rest, n + 1, acc =>
    if data.isEmpty then some acc
    else get_daily_candles_loop rest (n + 1 - data.length) (acc ++ data)

/-- Model of `main.get_daily_candles`: run the pagination loop with an empty
accumulator and the requested total count. -/
def get_daily_candles (script : List ApiResp) (count : Nat) : Option (List Candle) :=
  get_daily_candles_loop script count []

/-! Concrete data used by the scenario theorems and witnesses below. -/

/-- A row for the C1 witness table: today (day 0) already holds
high 105 / low 95. -/
def w1Row : Row :=
  { idx := 1, open_price := 100, close_price := 102, high_price := 105,
    low_price := 95, volume := 1, reg_date := 0 }

/-- A one-row table holding `w1Row` for day 0. -/
def w1Table : Table := [w1Row]

/-- A fetched candle for day 0 trading above the stored high. -/
def w1Candle : Candle :=
  { opening_price := 100, trade_price := 110, high_price := 111,
    low_price := 94, candle_acc_trade_volume := 2, candle_date_kst := 0 }

/-- Seed row `i` of the 120-day scenario: days 81 through 199, every high
95,000,000 except day 131 (`i = 50`) whose high is the window maximum
100,000,000. -/
def c2SeedRow (i : Nat) : Row :=
  { idx := i + 1, open_price := 95000000, close_price := 95000000,
    high_price := if i = 50 then 100000000 else 95000000,
    low_price := 90000000, volume := 1, reg_date := 81 + (i : Int) }

/-- Today's stored row in the 120-day scenario (day 200): the prior poll
left high 99,000,000 / low 90,000,000. -/
def c2TodayRow : Row :=
  { idx := 120, open_price := 95500000, close_price := 98000000,
    high_price := 99000000, low_price := 90000000, volume := 2, reg_date := 200 }

/-- The 120-row store of the end-to-end scenario: 119 seeded history rows
plus today's row, exactly what `bulk_insert_candles` followed by
`insert_candle` produces (see `c2Table_eq_seed_path`). -/
def c2Table : Table := (List.range 119).map c2SeedRow ++ [c2TodayRow]

/-- The seed candle producing `c2SeedRow i` through the store. -/
def c2SeedCandle (i : Nat) : Candle :=
  { opening_price := 95000000, trade_price := 95000000,
    high_price := if i = 50 then 100000000 else 95000000,
    low_price := 90000000, candle_acc_trade_volume := 1,
    candle_date_kst := 81 + (i : Int) }

/-- The earlier poll of day 200 that inserted today's row. -/
def c2TodayCandle : Candle :=
  { opening_price := 95500000, trade_price := 98000000, high_price := 99000000,
    low_price := 90000000, candle_acc_trade_volume := 2, candle_date_kst := 200 }

/-- The next poll of the scenario: price 100,000,001, above the stored
high 99,000,000 and above the whole 120-day window. -/
def c2Fetched : Candle :=
  { opening_price := 95500000, trade_price := 100000001, high_price := 100000001,
    low_price := 95000000, candle_acc_trade_volume := 3, candle_date_kst := 200 }

/-- First poll of day 5 in the insert-then-update scenario:
`{open:100, close:100, high:100, low:100}`. -/
def c3First : Candle :=
  { opening_price := 100, trade_price := 100, high_price := 100,
    low_price := 100, candle_acc_trade_volume := 4, candle_date_kst := 5 }

/-- Second poll of day 5: `{close:110, high:110, low:95}` with a different
opening price, which the update must not write back. -/
def c3Second : Candle :=
  { opening_price := 120, trade_price := 110, high_price := 110,
    low_price := 95, candle_acc_trade_volume := 7, candle_date_kst := 5 }

/-- The spec's window example: today (day 10) and the prior 4 days with
highs `[100, 105, 98, 110, 102]`. -/
def exTable : Table :=
  [ { idx := 1, open_price := 1, close_price := 1, high_price := 100,
      low_price := 50, volume := 1, reg_date := 6 },
    { idx := 2, open_price := 1, close_price := 1, high_price := 105,
      low_price := 51, volume := 1, reg_date := 7 },
    { idx := 3, open_price := 1, close_price := 1, high_price := 98,
      low_price := 52, volume := 1, reg_date := 8 },
    { idx := 4, open_price := 1, close_price := 1, high_price := 110,
      low_price := 53, volume := 1, reg_date := 9 },
    { idx := 5, open_price := 1, close_price := 1, high_price := 102,
      low_price := 54, volume := 1, reg_date := 10 } ]

/-- A table whose only row (dated today = day 10) has high 0 and low 0:
data is present but both window extrema are the falsy value `0`. -/
def zTable : Table :=
  [ { idx := 1, open_price := 0, close_price := 0, high_price := 0,
      low_price := 0, volume := 1, reg_date := 10 } ]

/-- A well-formed candle for day 0 used by the idempotence witness. -/
def w5Candle : Candle :=
  { opening_price := 1, trade_price := 2, high_price := 3,
    low_price := 1, candle_acc_trade_volume := 1, candle_date_kst := 0 }

/-- A candle used in the pagination witness page. -/
def w6Candle : Candle :=
  { opening_price := 1, trade_price := 1, high_price := 1,
    low_price := 1, candle_acc_trade_volume := 1, candle_date_kst := 0 }

instance : Std.Antisymm (fun (a b : ℚ) => a ≤ b) :=
  ⟨@fun _ _ h h2 => le_antisymm h h2⟩

/-- The row the store's insert writes for `candle` at surrogate key `k`. -/
def rowOfCandle (k : Nat) (candle : Candle) : Row :=
  { idx := k, open_price := candle.opening_price, close_price := candle.trade_price,
    high_price := candle.high_price, low_price := candle.low_price,
    volume := candle.candle_acc_trade_volume, reg_date := candle.candle_date_kst }

/-! Helper lemmas shared by the claim theorems. -/

theorem listMax_eq_some_iff {l : List ℚ} {m : ℚ} :
    listMax l = some m ↔ m ∈ l ∧ ∀ x ∈ l, x ≤ m :=
  List.max?_eq_some_iff (fun a => le_refl a) (fun a b => max_choice a b)
    (fun _ _ _ => max_le_iff)

theorem listMin_eq_some_iff {l : List ℚ} {m : ℚ} :
    listMin l = some m ↔ m ∈ l ∧ ∀ x ∈ l, m ≤ x :=
  List.min?_eq_some_iff (fun a => le_refl a) (fun a b => min_choice a b)
    (fun _ _ _ => le_min_iff)

theorem listMax_eq_none_iff {l : List ℚ} : listMax l = none ↔ l = [] := by
  simp [listMax]

theorem listMin_eq_none_iff {l : List ℚ} : listMin l = none ↔ l = [] := by
  simp [listMin]

theorem get_period_high_eq_some {table : Table} {today : Int} {days : Nat} {m : ℚ}
    (hmem : m ∈ (periodRows table today days).map Row.high_price)
    (hle : ∀ x ∈ (periodRows table today days).map Row.high_price, x ≤ m)
    (hm0 : m ≠ 0) :
    get_period_high table today days = some m := by
  unfold get_period_high
  rw [listMax_eq_some_iff.mpr ⟨hmem, hle⟩]
  simp [hm0]

theorem get_period_low_eq_some {table : Table} {today : Int} {days : Nat} {m : ℚ}
    (hmem : m ∈ (periodRows table today days).map Row.low_price)
    (hle : ∀ x ∈ (periodRows table today days).map Row.low_price, m ≤ x)
    (hm0 : m ≠ 0) :
    get_period_low table today days = some m := by
  unfold get_period_low
  rw [listMin_eq_some_iff.mpr ⟨hmem, hle⟩]
  simp [hm0]

theorem insert_candle_eq (table : Table) (candle : Candle) :
    insert_candle table candle = table ++ [rowOfCandle (nextIdx table) candle] :=
  rfl

/-- Seeding an empty table from a candle generator over `List.range`
produces exactly the generated rows with surrogate keys 1, 2, ... -/
theorem bulk_insert_range (n : Nat) (f : Nat → Candle) :
    bulk_insert_candles [] ((List.range n).map f) =
      (List.range n).map (fun i => rowOfCandle (i + 1) (f i)) := by
  induction n with
  | zero => rfl
  | succ k ih =>
    rw [List.range_succ, List.map_append, List.map_append,
      List.map_singleton, List.map_singleton]
    rw [show bulk_insert_candles [] ((List.range k).map f ++ [f k]) =
          bulk_insert_candles (bulk_insert_candles [] ((List.range k).map f)) [f k] by
      simp [bulk_insert_candles, List.foldl_append]]
    rw [ih]
    have hlen : ((List.range k).map (fun i => rowOfCandle (i + 1) (f i))).length = k := by
      simp
    simp [bulk_insert_candles, insert_candle, nextIdx, hlen, rowOfCandle]

/-- The 120-row scenario table is exactly what seeding 119 history candles
and then inserting today's first poll produces. -/
theorem c2Table_eq_seed_path :
    c2Table =
      insert_candle (bulk_insert_candles [] ((List.range 119).map c2SeedCandle))
        c2TodayCandle := by
  rw [bulk_insert_range, insert_candle_eq]
  have hfun : (fun i => rowOfCandle (i + 1) (c2SeedCandle i)) = c2SeedRow := by
    funext i
    rfl
  rw [hfun]
  have hnext : nextIdx ((List.range 119).map c2SeedRow) = 120 := by
    simp [nextIdx]
  rw [hnext]
  rfl

/-- After a fresh insert for today, today's lookup finds the inserted row. -/
theorem get_record_after_insert (table : Table) (candle : Candle) (today : Int)
    (h : get_record_by_date table today = none) (hdate : candle.candle_date_kst = today) :
    get_record_by_date (insert_candle table candle) today =
      some (rowOfCandle (nextIdx table) candle) := by
  unfold get_record_by_date at *
  rw [insert_candle_eq, List.find?_append, h]
  simp [rowOfCandle, hdate]

/-- Today's lookup after an update is the original lookup with
close/high/low/volume overwritten from the candle. -/
theorem get_record_by_date_update_candle (table : Table) (candle : Candle) (today : Int) :
    get_record_by_date (update_candle table candle today) today =
      (get_record_by_date table today).map (fun r =>
        { r with close_price := candle.trade_price, high_price := candle.high_price,
                 low_price := candle.low_price, volume := candle.candle_acc_trade_volume }) := by
  induction table with
  | nil => rfl
  | cons a l ih =>
    by_cases ha : a.reg_date = today
    · simp [get_record_by_date, update_candle, ha]
    · simp only [get_record_by_date, update_candle, List.map_cons] at ih ⊢
      rw [if_neg ha]
      rw [List.find?_cons_of_neg _ (by simpa using ha),
        List.find?_cons_of_neg _ (by simpa using ha)]
      exact ih

/-- After an update for today, today's lookup returns the stored row with
close/high/low/volume overwritten from the candle. -/
theorem get_record_after_update (table : Table) (candle : Candle) (today : Int) (r : Row)
    (h : get_record_by_date table today = some r) :
    get_record_by_date (update_candle table candle today) today =
      some { r with close_price := candle.trade_price,
                    high_price := candle.high_price,
                    low_price := candle.low_price,
                    volume := candle.candle_acc_trade_volume } := by
  rw [get_record_by_date_update_candle, h]
  rfl

theorem roundHalfEven_intCast (n : Int) : roundHalfEven (n : ℚ) = n := by
  simp only [roundHalfEven, Int.floor_intCast, sub_self]
  norm_num

theorem formatFixed2_ten : formatFixed2 10 = "10.00" := by
  unfold formatFixed2
  rw [show (10 : ℚ) * 100 = ((1000 : Int) : ℚ) by norm_num, roundHalfEven_intCast]
  decide

theorem formatFixed2_neg_ten : formatFixed2 (-10) = "-10.00" := by
  unfold formatFixed2
  rw [show (-10 : ℚ) * 100 = ((-1000 : Int) : ℚ) by norm_num, roundHalfEven_intCast]
  decide

theorem fpd_110_100 : format_percent_diff 110 (some 100) = Except.ok " (+10.00%)" := by
  simp only [format_percent_diff, pydiv]
  norm_num
  rw [formatFixed2_ten]
  rfl

theorem fpd_90_100 : format_percent_diff 90 (some 100) = Except.ok " (-10.00%)" := by
  simp only [format_percent_diff, pydiv]
  norm_num
  rw [formatFixed2_neg_ten]
  rfl

/-- The pagination loop hitting an exception after consuming a prefix of
nonempty pages returns exactly what it accumulated, or `none` when that is
empty. -/
theorem get_daily_candles_loop_err (goods : List (List Candle)) (rest : List ApiResp)
    (n : Nat) (acc : List Candle)
    (hne : ∀ g ∈ goods, g ≠ [])
    (hcount : (goods.map List.length).sum < n) :
    get_daily_candles_loop (goods.map ApiResp.ok ++ ApiResp.err :: rest) n acc =
      if (acc ++ goods.flatten).isEmpty then none else some (acc ++ goods.flatten) := by
  induction goods generalizing n acc with
  | nil =>
    obtain ⟨m, rfl⟩ : ∃ m, n = m + 1 := ⟨n - 1, by omega⟩
    simp [get_daily_candles_loop]
  | cons g gs ih =>
    have hn : 0 < n := by
      have := hcount
      simp at this
      omega
    obtain ⟨m, rfl⟩ : ∃ m, n = m + 1 := ⟨n - 1, by omega⟩
    have hg : g ≠ [] := hne g (by simp)
    simp only [List.map_cons, List.cons_append, get_daily_candles_loop]
    rw [if_neg (by simpa using hg)]
    simp only [List.append_eq]
    rw [ih (m + 1 - g.length) (acc ++ g) (fun x hx => hne x (by simp [hx]))
      (by simp at hcount; omega)]
    simp

/-! The claim theorems. -/

/-- C1: when the store already holds a row for today, the cycle compares the
new trade price against that stored row's high/low (read before any write —
the alerts are composed from the pre-update table), and writes the fetched
candle through the update path regardless of the comparison's outcome. -/
theorem breakout_compares_prewrite_row (table : Table) (candle : Candle) (today : Int)
    (r : Row) (h : get_record_by_date table today = some r) :
    process_symbol table (some candle) today =
      (update_candle table candle today,
        (if r.high_price < candle.trade_price then
            [compose_alert table today AlertKind.HIGH candle.trade_price] else []) ++
        (if candle.trade_price < r.low_price then
            [compose_alert table today AlertKind.LOW candle.trade_price] else [])) := by
  simp only [process_symbol, h]
  by_cases h1 : r.high_price < candle.trade_price <;>
    by_cases h2 : candle.trade_price < r.low_price <;>
      simp [h1, h2]

/-- Witness for C1 at a concrete one-row table. -/
theorem breakout_compares_prewrite_row_witness :
    get_record_by_date w1Table 0 = some w1Row ∧
    process_symbol w1Table (some w1Candle) 0 =
      (update_candle w1Table w1Candle 0,
        (if w1Row.high_price < w1Candle.trade_price then
            [compose_alert w1Table 0 AlertKind.HIGH w1Candle.trade_price] else []) ++
        (if w1Candle.trade_price < w1Row.low_price then
            [compose_alert w1Table 0 AlertKind.LOW w1Candle.trade_price] else [])) :=
  ⟨by decide, breakout_compares_prewrite_row w1Table w1Candle 0 w1Row (by decide)⟩

/-- C3: the daily update overwrites only close/high/low/volume, keeping
`open_price` (and `idx`, `reg_date`) from the first insert of the day and
leaving rows of other dates untouched; it overwrites high/low with the
latest call's values rather than taking a running max/min. Concretely,
inserting day 5 as `{open:100, close:100, high:100, low:100}` and then
updating with `{close:110, high:110, low:95}` stores
`{open:100, close:110, high:110, low:95}`. -/
theorem update_modifies_only_close_high_low_volume
    (table : Table) (candle : Candle) (date : Int) :
    ((update_candle table candle date).map Row.open_price = table.map Row.open_price ∧
      (update_candle table candle date).map Row.idx = table.map Row.idx ∧
      (update_candle table candle date).map Row.reg_date = table.map Row.reg_date) ∧
    (∀ (i : Nat) (r : Row), table[i]? = some r →
      (r.reg_date ≠ date → (update_candle table candle date)[i]? = some r) ∧
      (r.reg_date = date →
        (update_candle table candle date)[i]? =
          some { r with close_price := candle.trade_price,
                        high_price := candle.high_price,
                        low_price := candle.low_price,
                        volume := candle.candle_acc_trade_volume })) ∧
    get_record_by_date (update_candle (insert_candle [] c3First) c3Second 5) 5 =
      some { idx := 1, open_price := 100, close_price := 110, high_price := 110,
             low_price := 95, volume := 7, reg_date := 5 } := by
  refine ⟨⟨?_, ?_, ?_⟩, ?_, by decide⟩
  · unfold update_candle
    rw [List.map_map]
    congr 1
    funext x
    by_cases hx : x.reg_date = date <;> simp [hx]
  · unfold update_candle
    rw [List.map_map]
    congr 1
    funext x
    by_cases hx : x.reg_date = date <;> simp [hx]
  · unfold update_candle
    rw [List.map_map]
    congr 1
    funext x
    by_cases hx : x.reg_date = date <;> simp [hx]
  · intro i r hi
    constructor
    · intro hne
      unfold update_candle
      rw [List.getElem?_map, hi]
      simp [hne]
    · intro heq
      unfold update_candle
      rw [List.getElem?_map, hi]
      simp [heq]

/-- Witness for C3: the inserted row of day 5 is found at index 0, and the
update rewrites exactly its close/high/low/volume. -/
theorem update_modifies_only_close_high_low_volume_witness :
    (update_candle (insert_candle [] c3First) c3Second 5)[0]? =
      some { rowOfCandle 1 c3First with
             close_price := c3Second.trade_price,
             high_price := c3Second.high_price,
             low_price := c3Second.low_price,
             volume := c3Second.candle_acc_trade_volume } :=
  ((update_modifies_only_close_high_low_volume (insert_candle [] c3First) c3Second 5).2.1
      0 (rowOfCandle 1 c3First) (by decide)).2 (by decide)

/-- C4 counterexample: a qualifying row whose high is 0 makes the period
query return absent even though rows qualify and their maximum (0) exists —
so the query does not return the window maximum in every qualifying case. -/
theorem window_extrema_zero_counterexample :
    periodRows zTable 10 5 ≠ [] ∧
    listMax ((periodRows zTable 10 5).map Row.high_price) = some 0 ∧
    get_period_high zTable 10 5 = none := by
  exact ⟨by decide, by decide, by decide⟩

/-- C4 (amended): the period query filters rows dated on or after today
minus the window (today's row included); it returns absent when no rows
qualify, returns the maximum of `high_price` (resp. minimum of `low_price`)
over the qualifying rows whenever that extremum is nonzero, and any value
it does return is that extremum; over highs `[100,105,98,110,102]` on
today and the prior 4 days the 5-day high is 110, and over an empty series
it is absent. -/
theorem window_extrema_spec (table : Table) (today : Int) (days : Nat) :
    (periodRows table today days = [] →
      get_period_high table today days = none ∧
        get_period_low table today days = none) ∧
    (∀ m : ℚ, m ≠ 0 →
      (listMax ((periodRows table today days).map Row.high_price) = some m →
        get_period_high table today days = some m) ∧
      (listMin ((periodRows table today days).map Row.low_price) = some m →
        get_period_low table today days = some m)) ∧
    (∀ m : ℚ, get_period_high table today days = some m →
      m ∈ (periodRows table today days).map Row.high_price ∧
      ∀ x ∈ (periodRows table today days).map Row.high_price, x ≤ m) ∧
    (∀ m : ℚ, get_period_low table today days = some m →
      m ∈ (periodRows table today days).map Row.low_price ∧
      ∀ x ∈ (periodRows table today days).map Row.low_price, m ≤ x) ∧
    get_period_high exTable 10 5 = some 110 ∧
    get_period_high ([] : Table) 10 5 = none := by
  refine ⟨?_, ?_, ?_, ?_, by decide, by decide⟩
  · intro hempty
    unfold get_period_high get_period_low
    rw [hempty]
    simp [listMax, listMin]
  · intro m hm0
    exact ⟨fun hmax => get_period_high_eq_some (listMax_eq_some_iff.mp hmax).1
        (listMax_eq_some_iff.mp hmax).2 hm0,
      fun hmin => get_period_low_eq_some (listMin_eq_some_iff.mp hmin).1
        (listMin_eq_some_iff.mp hmin).2 hm0⟩
  · intro m hsome
    unfold get_period_high at hsome
    cases hmax : listMax ((periodRows table today days).map Row.high_price) with
    | none => rw [hmax] at hsome; simp at hsome
    | some x =>
      rw [hmax] at hsome
      simp only [] at hsome
      by_cases hx : x = 0
      · rw [if_pos hx] at hsome
        exact absurd hsome (by simp)
      · rw [if_neg hx] at hsome
        obtain rfl : x = m := Option.some.inj hsome
        exact listMax_eq_some_iff.mp hmax
  · intro m hsome
    unfold get_period_low at hsome
    cases hmin : listMin ((periodRows table today days).map Row.low_price) with
    | none => rw [hmin] at hsome; simp at hsome
    | some x =>
      rw [hmin] at hsome
      simp only [] at hsome
      by_cases hx : x = 0
      · rw [if_pos hx] at hsome
        exact absurd hsome (by simp)
      · rw [if_neg hx] at hsome
        obtain rfl : x = m := Option.some.inj hsome
        exact listMin_eq_some_iff.mp hmin

/-- Witness for C4 (amended) at the spec's example table. -/
theorem window_extrema_spec_witness :
    get_period_high exTable 10 5 = some 110 ∧
    ((110 : ℚ) ∈ (periodRows exTable 10 5).map Row.high_price ∧
      ∀ x ∈ (periodRows exTable 10 5).map Row.high_price, x ≤ 110) :=
  ⟨((window_extrema_spec exTable 10 5).2.1 110 (by decide)).1 (by decide),
    (window_extrema_spec exTable 10 5).2.2.1 110 (by decide)⟩

/-- C9: when qualifying rows exist but the window maximum of `high_price`
(resp. minimum of `low_price`) is 0, the truthiness check maps the value 0
to `None`, so the query reports absent and the alert formats the window as
"N/A" despite data being present. -/
theorem zero_extremum_reported_absent (table : Table) (today : Int) (days : Nat) :
    (listMax ((periodRows table today days).map Row.high_price) = some 0 →
      get_period_high table today days = none ∧
        price_str (get_period_high table today days) = "N/A") ∧
    (listMin ((periodRows table today days).map Row.low_price) = some 0 →
      get_period_low table today days = none ∧
        price_str (get_period_low table today days) = "N/A") := by
  constructor
  · intro h
    have hh : get_period_high table today days = none := by
      unfold get_period_high
      rw [h]
      simp
    exact ⟨hh, by rw [hh]; rfl⟩
  · intro h
    have hh : get_period_low table today days = none := by
      unfold get_period_low
      rw [h]
      simp
    exact ⟨hh, by rw [hh]; rfl⟩

/-- Witness for C9 at a table whose only row has high 0 and low 0. -/
theorem zero_extremum_reported_absent_witness :
    (get_period_high zTable 10 5 = none ∧
      price_str (get_period_high zTable 10 5) = "N/A") ∧
    (get_period_low zTable 10 5 = none ∧
      price_str (get_period_low zTable 10 5) = "N/A") :=
  ⟨(zero_extremum_reported_absent zTable 10 5).1 (by decide),
    (zero_extremum_reported_absent zTable 10 5).2 (by decide)⟩

/-- C5: running the per-symbol cycle twice on the same day with the same
fetched candle (a well-formed one, dated today with low ≤ trade ≤ high)
produces no alert on the second run: the first run's write leaves today's
stored high/low at the candle's high/low, and the strict comparisons
against them are then false. -/
theorem second_run_produces_no_alert (table : Table) (candle : Candle) (today : Int)
    (hdate : candle.candle_date_kst = today)
    (hlo : candle.low_price ≤ candle.trade_price)
    (hhi : candle.trade_price ≤ candle.high_price) :
    (process_symbol (process_symbol table (some candle) today).1 (some candle) today).2
      = [] := by
  cases h : get_record_by_date table today with
  | none =>
    have h1 : (process_symbol table (some candle) today).1 = insert_candle table candle := by
      simp [process_symbol, h]
    rw [h1]
    have h2 := get_record_after_insert table candle today h hdate
    simp only [process_symbol, h2]
    simp [rowOfCandle, not_lt.mpr hhi, not_lt.mpr hlo]
  | some r =>
    have h1 : (process_symbol table (some candle) today).1 =
        update_candle table candle today := by
      simp [process_symbol, h]
    rw [h1]
    have h2 := get_record_after_update table candle today r h
    simp only [process_symbol, h2]
    simp [not_lt.mpr hhi, not_lt.mpr hlo]

/-- Witness for C5: starting from an empty table with a well-formed candle
for day 0, the second run emits no alert. -/
theorem second_run_produces_no_alert_witness :
    w5Candle.candle_date_kst = 0 ∧
    w5Candle.low_price ≤ w5Candle.trade_price ∧
    w5Candle.trade_price ≤ w5Candle.high_price ∧
    (process_symbol (process_symbol [] (some w5Candle) 0).1 (some w5Candle) 0).2 = [] :=
  ⟨by decide, by decide, by decide,
    second_run_produces_no_alert [] w5Candle 0 (by decide) (by decide) (by decide)⟩

/-- C6: when pagination raises after a prefix of nonempty pages has been
accumulated (and the loop still needed more), the bulk fetch returns
exactly the accumulated records, and reports failure (`none`) only when
nothing had been accumulated. -/
theorem pagination_salvages_accumulated (goods : List (List Candle)) (rest : List ApiResp)
    (count : Nat)
    (hne : ∀ g ∈ goods, g ≠ [])
    (hcount : (goods.map List.length).sum < count) :
    get_daily_candles (goods.map ApiResp.ok ++ ApiResp.err :: rest) count =
      if goods.flatten.isEmpty then none else some goods.flatten := by
  unfold get_daily_candles
  rw [get_daily_candles_loop_err goods rest count [] hne hcount]
  simp

/-- Witness for C6: one good page then an exception, with more requested,
returns the one accumulated page. -/
theorem pagination_salvages_accumulated_witness :
    (∀ g ∈ [[w6Candle]], g ≠ []) ∧
    (([[w6Candle]] : List (List Candle)).map List.length).sum < 3 ∧
    get_daily_candles ([[w6Candle]].map ApiResp.ok ++ ApiResp.err :: []) 3 =
      (if ([[w6Candle]] : List (List Candle)).flatten.isEmpty then none
       else some ([[w6Candle]] : List (List Candle)).flatten) :=
  ⟨by decide, by decide,
    pagination_salvages_accumulated [[w6Candle]] [] 3 (by decide) (by decide)⟩

/-- C7: for every store state and every combination of chart-rendering and
Telegram failures, `send_alert`'s dispatch returns normally (the except
blocks swallow the raise, including a failing error-channel send); the try
body itself genuinely can raise, as the concrete failing environment
shows. -/
theorem alert_failures_never_propagate (table : Table) (today : Int) (env : NotifyEnv) :
    (∃ acts, send_alert_dispatch table today env = Except.ok acts) ∧
    send_alert_try_body [] 0
        { chart_ok := true, photo_ok := true, message_ok := false, test_ok := false } =
      Except.error () := by
  constructor
  · unfold send_alert_dispatch
    cases hbody : send_alert_try_body table today env with
    | ok acts => exact ⟨acts, rfl⟩
    | error e =>
      cases htest : telegram_send_test_message env with
      | ok u => exact ⟨[NotifyAction.test_message], rfl⟩
      | error e2 => exact ⟨[], rfl⟩
  · simp [send_alert_try_body, get_period_candles, periodRows, telegram_send_message]

/-- C10: the percent-deviation formatter is total — it returns `Except.ok`
on every input, and in particular a window value of 0 short-circuits to the
empty string before the (fallible) division is reached. -/
theorem format_percent_diff_total (c : ℚ) (p : Option ℚ) :
    (∃ s, format_percent_diff c p = Except.ok s) ∧
    format_percent_diff c (some 0) = Except.ok "" := by
  constructor
  · cases p with
    | none => exact ⟨"", rfl⟩
    | some q =>
      by_cases hq : q = 0
      · exact ⟨"", by simp [format_percent_diff, hq]⟩
      · by_cases hd : c - q = 0
        · exact ⟨"", by simp [format_percent_diff, hq, hd]⟩
        · by_cases hpos : 0 < c - q
          · exact ⟨" (+" ++ formatFixed2 ((c - q) / q * 100) ++ "%)",
              by simp [format_percent_diff, pydiv, hq, hd, hpos]⟩
          · exact ⟨" (" ++ formatFixed2 ((c - q) / q * 100) ++ "%)",
              by simp [format_percent_diff, pydiv, hq, hd, hpos]⟩
  · simp [format_percent_diff]

/-- C8 counterexample: at current=110, window=100 the formatter returns
`" (+10.00%)"` — the signed two-decimal percent wrapped in a leading space
and parentheses — which is not the bare string `"+10.00%"` the claim
states. -/
theorem percent_diff_literal_counterexample :
    format_percent_diff 110 (some 100) = Except.ok " (+10.00%)" ∧
    (Except.ok " (+10.00%)" : Except Unit String) ≠ Except.ok "+10.00%" := by
  refine ⟨fpd_110_100, fun hcontra => ?_⟩
  exact absurd (Except.ok.inj hcontra) (by decide)

/-- C8 (amended): the formatter computes (current − window)/window × 100
signed with two decimals and wraps a nonzero result in `" (…)"` — 110 vs
100 yields `" (+10.00%)"`, 90 vs 100 yields `" (-10.00%)"` — while an
absent window value or equal values yield the empty string. -/
theorem format_percent_diff_cases :
    format_percent_diff 110 (some 100) = Except.ok " (+10.00%)" ∧
    format_percent_diff 90 (some 100) = Except.ok " (-10.00%)" ∧
    (∀ c : ℚ, format_percent_diff c none = Except.ok "") ∧
    (∀ c : ℚ, format_percent_diff c (some c) = Except.ok "") := by
  refine ⟨fpd_110_100, fpd_90_100, fun c => rfl, fun c => ?_⟩
  by_cases hc : c = 0
  · simp [format_percent_diff, hc]
  · simp [format_percent_diff, hc, sub_self]

set_option maxRecDepth 20000 in
/-- C2 counterexample: in the seeded 120-day scenario (window maximum
100,000,000; today's stored high 99,000,000; next poll at 100,000,001) the
cycle does report a new high and composes exactly one alert — but that
alert's 120-day-high field is 100,000,000, the pre-write window maximum,
not the post-write 100,000,001 the claim requires, because `send_alert`
runs before `update_candle`. -/
theorem end_to_end_alert_field_counterexample :
    c2Table =
      insert_candle (bulk_insert_candles [] ((List.range 119).map c2SeedCandle))
        c2TodayCandle ∧
    get_record_by_date c2Table 200 = some c2TodayRow ∧
    listMax ((periodRows c2Table 200 120).map Row.high_price) = some 100000000 ∧
    ((process_symbol c2Table (some c2Fetched) 200).2).map Alert.price_120d =
      [some 100000000] ∧
    (some (100000000 : ℚ) : Option ℚ) ≠ some 100000001 := by
  have hrec : get_record_by_date c2Table 200 = some c2TodayRow := by decide
  refine ⟨c2Table_eq_seed_path, hrec, listMax_eq_some_iff.mpr ⟨by decide, by decide⟩,
    ?_, by decide⟩
  have halerts : (process_symbol c2Table (some c2Fetched) 200).2 =
      [compose_alert c2Table 200 AlertKind.HIGH c2Fetched.trade_price] := by
    simp only [process_symbol, hrec]
    simp [show c2TodayRow.high_price < c2Fetched.trade_price from by decide,
      show ¬ c2Fetched.trade_price < c2TodayRow.low_price from by decide]
  rw [halerts]
  have hp120 : get_period_high c2Table 200 120 = some 100000000 :=
    get_period_high_eq_some (by decide) (by decide) (by decide)
  simp [compose_alert, hp120]

set_option maxRecDepth 20000 in
/-- C2 (amended): in the seeded 120-day scenario the cycle reports a new
high with exactly one composed alert and persists the row update; the
alert's 120-day-high field, however, is the pre-write window maximum
100,000,000 (the store is queried before the write), while the post-write
120-day window maximum is indeed 100,000,001. -/
theorem end_to_end_breakout_scenario :
    get_record_by_date c2Table 200 = some c2TodayRow ∧
    (process_symbol c2Table (some c2Fetched) 200).2 =
      [compose_alert c2Table 200 AlertKind.HIGH c2Fetched.trade_price] ∧
    (compose_alert c2Table 200 AlertKind.HIGH c2Fetched.trade_price).price_120d =
      some 100000000 ∧
    (process_symbol c2Table (some c2Fetched) 200).1 =
      update_candle c2Table c2Fetched 200 ∧
    get_record_by_date (update_candle c2Table c2Fetched 200) 200 =
      some { idx := 120, open_price := 95500000, close_price := 100000001,
             high_price := 100000001, low_price := 95000000, volume := 3,
             reg_date := 200 } ∧
    get_period_high (update_candle c2Table c2Fetched 200) 200 120 = some 100000001 := by
  have hrec : get_record_by_date c2Table 200 = some c2TodayRow := by decide
  refine ⟨hrec, ?_, ?_, ?_, ?_, ?_⟩
  · simp only [process_symbol, hrec]
    simp [show c2TodayRow.high_price < c2Fetched.trade_price from by decide,
      show ¬ c2Fetched.trade_price < c2TodayRow.low_price from by decide]
  · have hp120 : get_period_high c2Table 200 120 = some 100000000 :=
      get_period_high_eq_some (by decide) (by decide) (by decide)
    simp [compose_alert, hp120]
  · simp [process_symbol, hrec]
  · rw [get_record_after_update c2Table c2Fetched 200 c2TodayRow hrec]
    rfl
  · exact get_period_high_eq_some (by decide) (by decide) (by decide)

end BithumbMonitor
